import Mathlib

/-
  A verification development for the stublint rule engine (stublint/linter.py).

  The Python abstract syntax fragment that the linter inspects is embedded as
  inductive types mirroring the Python 3.6 "ast" module grammar (ast.Num /
  ast.Str / ast.Index nodes, as the code targets).  Numeric literals are
  modelled by their rational value, matching Python's numeric "==" used by the
  code ("slc.value.n == 0", "slc.upper.n in (1, 2)").

  Every rule of LintVisitor is translated into a function that returns the
  ordered list of (lineno, message) pairs it passes to LintVisitor.error, with
  "none" standing for an uncaught Python exception (AttributeError/IndexError).
  The side-effecting "error" primitive itself (saw_error flag plus the printed
  "<filename>:<lineno>: <message>" record) is modelled separately and replayed
  over that list, exactly in emission order.
-/

namespace Stublint

/-- Comparison operators of the Python ast (ast.cmpop). -/
inductive Cmpop where
  | Lt | Gt | LtE | GtE | Eq | NotEq | Is | IsNot | In | NotIn
deriving DecidableEq, Repr

/-- Boolean operators of the Python ast (ast.boolop). -/
inductive Boolop where
  | And | Or
deriving DecidableEq, Repr

mutual
/-- Python expressions (the fragment the linter inspects), with their lineno. -/
inductive Expr where
  | Name (lineno : Nat) (id : String)
  | Num (lineno : Nat) (n : ℚ)
  | Str (lineno : Nat) (s : String)
  | Ellipsis (lineno : Nat)
  | Attribute (lineno : Nat) (value : Expr) (attr : String)
  | Subscript (lineno : Nat) (value : Expr) (slc : Slc)
  | Tuple (lineno : Nat) (elts : List Expr)
  | ListE (lineno : Nat) (elts : List Expr)
  | Call (lineno : Nat) (func : Expr) (args : List Expr)
  | Compare (lineno : Nat) (left : Expr) (ops : List Cmpop) (comparators : List Expr)
  | BoolOp (lineno : Nat) (op : Boolop) (values : List Expr)

/-- Subscript slices (ast.slice of Python 3.6: Index, Slice, ExtSlice). -/
inductive Slc where
  | Index (value : Expr)
  | Slice (lower upper step : Option Expr)
  | ExtSlice (dims : List Slc)
end

/-- A single parameter (ast.arg): name, optional annotation, lineno.
    (The "annotation" field of ast.arg is named "ann" here.) -/
structure Arg where
  lineno : Nat
  arg : String
  ann : Option Expr

/-- A parameter list (ast.arguments) of Python 3.6. -/
structure Arguments where
  args : List Arg
  vararg : Option Arg
  kwonlyargs : List Arg
  kw_defaults : List (Option Expr)
  kwarg : Option Arg
  defaults : List Expr

/-- Python statements (the fragment the linter inspects), with their lineno. -/
inductive Stmt where
  | FunctionDef (lineno : Nat) (name : String) (args : Arguments) (body : List Stmt)
      (returns : Option Expr)
  | Assign (lineno : Nat) (targets : List Expr) (value : Expr)
  | If (lineno : Nat) (test : Expr) (body orelse : List Stmt)
  | Pass (lineno : Nat)
  | Raise (lineno : Nat)
  | ExprStmt (lineno : Nat) (value : Expr)

/-- Line number of an expression node. -/
def Expr.lineno : Expr → Nat
  | .Name l _ => l
  | .Num l _ => l
  | .Str l _ => l
  | .Ellipsis l => l
  | .Attribute l _ _ => l
  | .Subscript l _ _ => l
  | .Tuple l _ => l
  | .ListE l _ => l
  | .Call l _ _ => l
  | .Compare l _ _ _ => l
  | .BoolOp l _ _ => l

/-- Line number of a statement node. -/
def Stmt.lineno : Stmt → Nat
  | .FunctionDef l _ _ _ _ => l
  | .Assign l _ _ => l
  | .If l _ _ _ => l
  | .Pass l => l
  | .Raise l => l
  | .ExprStmt l _ => l

/-- isinstance(e, ast.Num). -/
def Expr.isNum : Expr → Bool
  | .Num _ _ => true
  | _ => false

/-- isinstance(e, ast.Tuple). -/
def Expr.isTuple : Expr → Bool
  | .Tuple _ _ => true
  | _ => false

/-- isinstance(e, ast.Subscript). -/
def Expr.isSubscript : Expr → Bool
  | .Subscript _ _ _ => true
  | _ => false

/-- isinstance(e, ast.Ellipsis). -/
def Expr.isEllipsisNode : Expr → Bool
  | .Ellipsis _ => true
  | _ => false

/-- The Python attribute access "e.elts": defined for ast.Tuple and ast.List
    nodes, an AttributeError (modelled as none) on every other node kind. -/
def Expr.eltsAttr : Expr → Option (List Expr)
  | .Tuple _ elts => some elts
  | .ListE _ elts => some elts
  | _ => none

/-- A diagnostic as handed to LintVisitor.error: the node's lineno and the
    message. -/
abbrev Diag := Nat × String

/-- Per-run configuration of LintVisitor: the filename and the strict flag. -/
structure Config where
  filename : String
  strict : Bool

/-- pathlib.Path(p).name: the final path component (the characters after the
    last separator). -/
def pathBaseName (p : String) : String :=
  String.mk (p.data.foldl (fun acc c => if c = '/' then [] else acc ++ [c]) [])

/-- Formatting of a numeric literal value inside an f-string. -/
def pyNumStr (q : ℚ) : String :=
  if q.den = 1 then toString q.num else toString q

def _MUST_HAVE_SYS : String :=
  "Conditional expression must have sys.version_info or sys.platform as its left operand"

def _BAD_VERSION_SLICE : String :=
  "Unrecognized sys.version_info subscript"

def _VERSION_COMPARE_NUMBER : String :=
  "sys.version_info comparison must be against an int or tuple of ints"

def simpleComparisonMsg : String :=
  "Conditional expression must be a simple comparison"

def majorMinorMsg : String :=
  "version comparison must use only major and minor version"

def lengthTupleMsg (n : ℚ) : String :=
  "version comparison must be against a length-" ++ pyNumStr n ++ " tuple"

def strictEqualityMsg : String :=
  "Do not use strict equality for version checks"

def useOnlyMsg : String :=
  "Use only < and >= for version comparisons"

def platformOpMsg : String :=
  "sys.platform check only supports == and !="

def platformStrMsg : String :=
  "sys.platform check must be against a single string"

def unrecognizedPlatformMsg (s : String) : String :=
  "unrecognized platform \"" ++ s ++ "\""

def bodyOnlyMsg : String :=
  "Function body must contain only ... or pass"

def missingAnnMsg : String :=
  "Argument is missing a type annotation"

def defaultValueMsg : String :=
  "default value must be ... in a stub"

def missingReturnMsg : String :=
  "Function is missing a return type annotation"

def typeVarNameMsg : String :=
  "TypeVar must be assigned to a name"

def privateTypeVarMsg : String :=
  "Name of private TypeVar must start with _"

/-- Result of the subscript analysis at the top of _check_version_check:
    the must_be_single and can_have_strict_equals locals, plus the
    diagnostics emitted while analysing the subscript. -/
structure SliceRes where
  mustBeSingle : Bool
  canStrictEq : Option ℚ
  diags : List Diag

/-- The "if isinstance(version_info, ast.Subscript)" block of
    _check_version_check, applied to node.left; l is the lineno of the whole
    Compare node (every error call in the rule reports the Compare node). -/
def sliceCheck (version_info : Expr) (l : Nat) : SliceRes :=
  match version_info with
  | .Subscript _ _ slc =>
    match slc with
    | .Index v =>
      match v with
      | .Num _ n => if n = 0 then ⟨true, none, []⟩ else ⟨false, none, [(l, _BAD_VERSION_SLICE)]⟩
      | _ => ⟨false, none, [(l, _BAD_VERSION_SLICE)]⟩
    | .Slice lower upper step =>
      if lower.isSome || step.isSome then ⟨false, none, [(l, _BAD_VERSION_SLICE)]⟩
      else
        match upper with
        | some (.Num _ n) =>
          if n = 1 ∨ n = 2 then ⟨false, some n, []⟩ else ⟨false, none, [(l, _BAD_VERSION_SLICE)]⟩
        | _ => ⟨false, none, [(l, _BAD_VERSION_SLICE)]⟩
    | .ExtSlice _ => ⟨false, none, [(l, _BAD_VERSION_SLICE)]⟩
  | _ => ⟨false, none, []⟩

/-- LintVisitor._check_version_check.  The returned value is the ordered list
    of diagnostics; none models an uncaught exception (IndexError on an empty
    comparators/ops list, or the AttributeError raised by
    "len(comparator.elts)" when the comparator node has no "elts" field). -/
def _check_version_check (node : Expr) : Option (List Diag) :=
  match node with
  | .Compare l version_info ops comparators =>
    let sr := sliceCheck version_info l
    match comparators with
    | [] => none
    | comparator :: _ =>
      if sr.mustBeSingle then
        some (sr.diags ++ (if comparator.isNum then [] else [(l, _VERSION_COMPARE_NUMBER)]))
      else
        let cmpDiags :=
          match comparator with
          | .Tuple _ elts =>
            if !elts.all Expr.isNum then [(l, _VERSION_COMPARE_NUMBER)]
            else if elts.length > 2 then [(l, majorMinorMsg)]
            else []
          | _ => [(l, _VERSION_COMPARE_NUMBER)]
        match ops with
        | [] => none
        | cmpop :: _ =>
          match cmpop with
          | .Lt | .GtE => some (sr.diags ++ cmpDiags)
          | .Eq | .NotEq =>
            match sr.canStrictEq with
            | some n =>
              match comparator.eltsAttr with
              | none => none
              | some elts =>
                some (sr.diags ++ cmpDiags ++
                  (if (elts.length : ℚ) ≠ n then [(l, lengthTupleMsg n)] else []))
            | none => some (sr.diags ++ cmpDiags ++ [(l, strictEqualityMsg)])
          | _ => some (sr.diags ++ cmpDiags ++ [(l, useOnlyMsg)])
  | _ => none

/-- LintVisitor._check_platform_check. -/
def _check_platform_check (node : Expr) : Option (List Diag) :=
  match node with
  | .Compare l _ ops comparators =>
    match ops with
    | [] => none
    | cmpop :: _ =>
      let opDiags :=
        match cmpop with
        | .Eq | .NotEq => []
        | _ => [(l, platformOpMsg)]
      match comparators with
      | [] => none
      | comparator :: _ =>
        match comparator with
        | .Str _ s =>
          some (opDiags ++
            (if s = "linux" ∨ s = "win32" ∨ s = "cygwin" ∨ s = "darwin" then []
             else [(l, unrecognizedPlatformMsg s)]))
        | _ => some (opDiags ++ [(l, platformStrMsg)])
  | _ => none

/-- LintVisitor._check_if_expr. -/
def _check_if_expr (node : Expr) : Option (List Diag) :=
  match node with
  | .Compare l left _ comparators =>
    if comparators.length ≠ 1 then some [(l, simpleComparisonMsg)]
    else
      match left with
      | .Subscript _ _ _ => _check_version_check node
      | .Attribute _ (.Name _ vid) attr =>
        if vid = "sys" then
          if attr = "platform" then _check_platform_check node
          else if attr = "version_info" then _check_version_check node
          else some [(l, _MUST_HAVE_SYS)]
        else some [(l, _MUST_HAVE_SYS)]
      | .Attribute _ _ _ => some [(l, _MUST_HAVE_SYS)]
      | _ => some [(l, _MUST_HAVE_SYS)]
  | e => some [(e.lineno, simpleComparisonMsg)]

/-- The per-operand dispatch of visit_If over a BoolOp test, in order. -/
def checkIfExprList : List Expr → Option (List Diag)
  | [] => some []
  | e :: rest =>
    match _check_if_expr e with
    | none => none
    | some d =>
      match checkIfExprList rest with
      | none => none
      | some ds => some (d ++ ds)

/-- The test handling of visit_If: a BoolOp test is unwrapped into its
    operands (whatever its operator), any other test is checked directly. -/
def checkIfTest (test : Expr) : Option (List Diag) :=
  match test with
  | .BoolOp _ _ values => checkIfExprList values
  | t => _check_if_expr t

/-- The get_args generator inside visit_arguments: first positional parameter
    unless named self/cls, remaining positionals, vararg, keyword-only
    parameters, kwarg. -/
def get_args (a : Arguments) : List Arg :=
  (match a.args with
   | [] => []
   | a0 :: rest => (if a0.arg = "self" ∨ a0.arg = "cls" then [] else [a0]) ++ rest)
  ++ a.vararg.toList ++ a.kwonlyargs ++ a.kwarg.toList

/-- The default-value scan of visit_arguments over kw_defaults + defaults. -/
def defaultDiags (a : Arguments) : List Diag :=
  (a.kw_defaults ++ a.defaults.map some).flatMap (fun d =>
    match d with
    | some e => if e.isEllipsisNode then [] else [(e.lineno, defaultValueMsg)]
    | none => [])

/-- LintVisitor.visit_arguments (the expression children visited by its
    generic_visit contribute no diagnostics in this fragment). -/
def visit_arguments (strict : Bool) (a : Arguments) : List Diag :=
  if strict then
    defaultDiags a ++
      (get_args a).flatMap (fun arg =>
        if arg.ann.isNone then [(arg.lineno, missingAnnMsg)] else [])
  else []

/-- str.startswith("_"): the first character is an underscore. -/
def startsWithUnderscore (s : String) : Bool :=
  match s.data with
  | [] => false
  | c :: _ => c = '_'

/-- The per-target check of the TypeVar rule in visit_Assign. -/
def typeVarTargetDiag (filename : String) (target : Expr) : List Diag :=
  match target with
  | .Name tl id =>
    if !startsWithUnderscore id then
      if pathBaseName filename ≠ "typing.pyi" then [(tl, privateTypeVarMsg)] else []
    else []
  | _ => [(target.lineno, typeVarNameMsg)]

/-- The TypeVar check of LintVisitor.visit_Assign (runs after generic_visit,
    which contributes no diagnostics: assignment children are expressions). -/
def visit_Assign_check (filename : String) (targets : List Expr) (value : Expr) : List Diag :=
  match value with
  | .Call _ (.Name _ fid) _ =>
    if fid = "TypeVar" then targets.flatMap (typeVarTargetDiag filename) else []
  | _ => []

/-- isinstance checks of the body loop: targets[0] is an ast.Attribute whose
    value is the ast.Name "self". -/
def isSelfAttrTarget : Expr → Bool
  | .Attribute _ (.Name _ v) _ => v = "self"
  | _ => false

/-- One iteration of the body loop of visit_FunctionDef, at index i.  none
    models the IndexError of "statement.targets[0]" on an empty target list
    (reachable only in a function named __init__, an ill-formed tree). -/
def bodyStatementCheck (fname : String) (i : Nat) (statement : Stmt) : Option (List Diag) :=
  if i = 0 ∧ (match statement with
              | .Pass _ => true
              | .ExprStmt _ v => v.isEllipsisNode
              | _ => false) = true then some []
  else
    match statement with
    | .Raise _ => some []
    | _ =>
      if fname = "__init__" then
        match statement with
        | .Assign _ (t :: _) _ =>
          if isSelfAttrTarget t then some [] else some [(statement.lineno, bodyOnlyMsg)]
        | .Assign _ [] _ => none
        | _ => some [(statement.lineno, bodyOnlyMsg)]
      else some [(statement.lineno, bodyOnlyMsg)]

/-- The enumerate loop over the function body in visit_FunctionDef, starting
    at index i. -/
def functionBodyLoopFrom (fname : String) (i : Nat) : List Stmt → Option (List Diag)
  | [] => some []
  | statement :: rest =>
    match bodyStatementCheck fname i statement with
    | none => none
    | some d =>
      match functionBodyLoopFrom fname (i + 1) rest with
      | none => none
      | some ds => some (d ++ ds)

/-- The whole body loop of visit_FunctionDef. -/
def functionBodyLoop (fname : String) (body : List Stmt) : Option (List Diag) :=
  functionBodyLoopFrom fname 0 body

mutual
/-- LintVisitor.visit dispatch over one statement.  Each handler first runs
    generic_visit (children in ast field order), then its own checks;
    expression children carry no handlers in this fragment and contribute no
    diagnostics.  none models an uncaught exception. -/
def visitStmt (cfg : Config) : Stmt → Option (List Diag)
  | .FunctionDef l name args body returns =>
    match visitStmts cfg body with
    | none => none
    | some bodyDiags =>
      match functionBodyLoop name body with
      | none => none
      | some loopDiags =>
        some (visit_arguments cfg.strict args ++ bodyDiags ++
          (if cfg.strict && returns.isNone then [(l, missingReturnMsg)] else []) ++ loopDiags)
  | .Assign _ targets value => some (visit_Assign_check cfg.filename targets value)
  | .If _ test body orelse =>
    match visitStmts cfg body with
    | none => none
    | some b =>
      match visitStmts cfg orelse with
      | none => none
      | some o =>
        match checkIfTest test with
        | none => none
        | some t => some (b ++ o ++ t)
  | .Pass _ => some []
  | .Raise _ => some []
  | .ExprStmt _ _ => some []

/-- generic_visit over a statement list, in order. -/
def visitStmts (cfg : Config) : List Stmt → Option (List Diag)
  | [] => some []
  | s :: rest =>
    match visitStmt cfg s with
    | none => none
    | some d =>
      match visitStmts cfg rest with
      | none => none
      | some ds => some (d ++ ds)
end

/-- Per-run mutable state of LintVisitor: the saw_error flag and the ordered
    sequence of printed diagnostics. -/
structure LintState where
  saw_error : Bool
  diags : List String
deriving DecidableEq, Repr

/-- The printed form of one diagnostic. -/
def diagString (filename : String) (lineno : Nat) (msg : String) : String :=
  filename ++ ":" ++ toString lineno ++ ": " ++ msg

/-- LintVisitor.error: set saw_error and append one formatted diagnostic. -/
def error (filename : String) (lineno : Nat) (msg : String) (st : LintState) : LintState :=
  { saw_error := true, diags := st.diags ++ [diagString filename lineno msg] }

/-- Replay a list of emitted diagnostics through the error primitive. -/
def emitAll (filename : String) (ds : List Diag) (st : LintState) : LintState :=
  ds.foldl (fun s d => error filename d.1 d.2 s) st

/-- A whole analysis run: visit the tree from a fresh state.  none models an
    uncaught exception escaping LintVisitor.visit. -/
def runVisitor (cfg : Config) (tree : List Stmt) : Option LintState :=
  (visitStmts cfg tree).map (fun ds => emitAll cfg.filename ds ⟨false, []⟩)

/-- lint_file's result: "return not visitor.saw_error". -/
def lintTree (cfg : Config) (tree : List Stmt) : Option Bool :=
  (runVisitor cfg tree).map (fun st => !st.saw_error)

/-- Modelled from the claim wording of C2: the upper bound of a "[:1]" or
    "[:2]" slice on the left operand, if the left operand has that shape. -/
def specSliceUpper : Expr → Option ℚ
  | .Subscript _ _ (.Slice none (some (.Num _ n)) none) =>
    if n = 1 ∨ n = 2 then some n else none
  | _ => none

/-- Modelled from the claim wording of C4 (as amended): a body statement is
    allowed when it is the first statement and a pass statement or a bare
    "..." expression, or a raise statement, or (in a function named __init__)
    an assignment whose first target is an attribute access on "self". -/
def allowedBodyStatement (fname : String) (i : Nat) (s : Stmt) : Bool :=
  (i == 0 && (match s with
              | .Pass _ => true
              | .ExprStmt _ v => v.isEllipsisNode
              | _ => false))
  || (match s with | .Raise _ => true | _ => false)
  || (fname == "__init__" && (match s with
      | .Assign _ (t :: _) _ => isSelfAttrTarget t
      | _ => false))

/- ------------------------------------------------------------------ -/
/- Helper lemmas                                                       -/
/- ------------------------------------------------------------------ -/

theorem emitAll_cons (f : String) (d : Diag) (t : List Diag) (st : LintState) :
    emitAll f (d :: t) st = emitAll f t (error f d.1 d.2 st) := rfl

theorem emitAll_spec (f : String) (ds : List Diag) (e : Bool) (cur : List String) :
    emitAll f ds ⟨e, cur⟩ =
      ⟨e || !ds.isEmpty, cur ++ ds.map (fun d => diagString f d.1 d.2)⟩ := by
  induction ds generalizing e cur with
  | nil => simp [emitAll]
  | cons d t ih =>
    rw [emitAll_cons]
    show emitAll f t ⟨true, cur ++ [diagString f d.1 d.2]⟩ = _
    rw [ih]
    simp

theorem sliceCheck_canStrictEq (left : Expr) (l : Nat) :
    (sliceCheck left l).canStrictEq = specSliceUpper left := by
  cases left <;> try rfl
  case Subscript l' v slc =>
    cases slc with
    | Index iv =>
      cases iv <;> simp [sliceCheck, specSliceUpper]
      case Num _ n => split <;> rfl
    | Slice lower upper step =>
      cases lower with
      | some lo => cases upper <;> simp [sliceCheck, specSliceUpper]
      | none =>
        cases step with
        | some stp => cases upper <;> simp [sliceCheck, specSliceUpper]
        | none =>
          cases upper with
          | none => simp [sliceCheck, specSliceUpper]
          | some ue =>
            cases ue <;> simp [sliceCheck, specSliceUpper]
            case Num _ n => split <;> rfl
    | ExtSlice dims => rfl

theorem sliceCheck_not_subscript (left : Expr) (l : Nat)
    (hns : left.isSubscript = false) : sliceCheck left l = ⟨false, none, []⟩ := by
  cases left <;> first | rfl | simp [Expr.isSubscript] at hns

theorem flatMap_if_eq_filterMap {α β : Type} (p : α → Bool) (g : α → β) (l : List α) :
    l.flatMap (fun x => if p x then [g x] else []) =
      l.filterMap (fun x => if p x then some (g x) else none) := by
  induction l with
  | nil => rfl
  | cons x t ih => cases hp : p x <;> simp [hp, ih]

/- ------------------------------------------------------------------ -/
/- Claim theorems                                                      -/
/- ------------------------------------------------------------------ -/

/-- Claim C1 (code bug): the spec guarantees the rule engine never raises an
    uncaught exception on a well-formed tree, but on the well-formed stub

      if sys.version_info[:1] == 3:
          pass

    the version-check rule reports the non-tuple comparator and then still
    evaluates len(comparator.elts) on the ast.Num node, raising an
    AttributeError that escapes LintVisitor.visit.  The analysis run is
    modelled as returning none (an uncaught exception). -/
theorem C1_engine_crashes_on_nontuple_strict_equals :
    runVisitor ⟨"a.pyi", false⟩
      [.If 1 (.Compare 1 (.Subscript 1 (.Attribute 1 (.Name 1 "sys") "version_info")
          (.Slice none (some (.Num 1 1)) none)) [.Eq] [.Num 1 3]) [.Pass 2] []] = none := by
  decide

/-- Claim C5: for a comparison routed to the platform-check rule (left operand
    is the attribute access sys.platform), an operator other than == or !=
    yields the operator diagnostic, a non-string comparator yields the
    single-string diagnostic, a string comparator outside
    {linux, win32, cygwin, darwin} yields the unrecognized-platform
    diagnostic, and a string comparator in that set with == or != yields no
    diagnostic. -/
theorem C5_platform_check (l la ln : Nat) (op : Cmpop) (c : Expr) :
    _check_if_expr (.Compare l (.Attribute la (.Name ln "sys") "platform") [op] [c]) =
      some ((if op = .Eq ∨ op = .NotEq then [] else [(l, platformOpMsg)]) ++
        (match c with
         | .Str _ s =>
           if s = "linux" ∨ s = "win32" ∨ s = "cygwin" ∨ s = "darwin" then []
           else [(l, unrecognizedPlatformMsg s)]
         | _ => [(l, platformStrMsg)])) := by
  cases op <;> cases c <;> simp [_check_if_expr, _check_platform_check]

/-- Claim C6: for an assignment whose right-hand side is a call to a callee
    named exactly TypeVar, each non-name target yields the
    "TypeVar must be assigned to a name" diagnostic, each name target not
    starting with an underscore yields the "must start with _" diagnostic
    except when the analyzed file is named typing.pyi (then nothing), and
    underscore-prefixed name targets yield nothing in any file. -/
theorem C6_typevar_assign (cfg : Config) (l lc ln : Nat) (targets : List Expr)
    (args : List Expr) :
    visitStmt cfg (.Assign l targets (.Call lc (.Name ln "TypeVar") args)) =
      some (targets.flatMap (fun target =>
        match target with
        | .Name tl id =>
          if startsWithUnderscore id then []
          else if pathBaseName cfg.filename = "typing.pyi" then []
          else [(tl, privateTypeVarMsg)]
        | t => [(t.lineno, typeVarNameMsg)])) := by
  show some (visit_Assign_check cfg.filename targets (.Call lc (.Name ln "TypeVar") args)) = _
  have hfun : typeVarTargetDiag cfg.filename = (fun target =>
      match target with
      | .Name tl id =>
        if startsWithUnderscore id then []
        else if pathBaseName cfg.filename = "typing.pyi" then []
        else [(tl, privateTypeVarMsg)]
      | t => [(t.lineno, typeVarNameMsg)]) := by
    funext t
    cases t <;> simp only [typeVarTargetDiag]
    case Name tl id =>
      cases hu : startsWithUnderscore id <;>
        by_cases hf : pathBaseName cfg.filename = "typing.pyi" <;> simp [hu, hf]
  simp [visit_Assign_check, hfun]

/-- Claim C7: in strict mode every parameter lacking an annotation yields
    exactly one missing-annotation diagnostic, the first positional parameter
    being exempt exactly when named self or cls, the checked parameters
    being: first positional (unless exempt), remaining positionals, vararg,
    keyword-only parameters, kwarg; non-strict mode emits no parameter
    diagnostics at all. -/
theorem C7_strict_annotations (a : Arguments) :
    visit_arguments false a = [] ∧
    visit_arguments true a =
      defaultDiags a ++
        ((match a.args with
          | [] => []
          | a0 :: rest => if a0.arg = "self" ∨ a0.arg = "cls" then rest else a0 :: rest)
         ++ a.vararg.toList ++ a.kwonlyargs ++ a.kwarg.toList).filterMap
          (fun arg => if arg.ann.isNone then some (arg.lineno, missingAnnMsg) else none) := by
  constructor
  · rfl
  · show defaultDiags a ++ (get_args a).flatMap _ = _
    have henum : get_args a =
        (match a.args with
         | [] => []
         | a0 :: rest => if a0.arg = "self" ∨ a0.arg = "cls" then rest else a0 :: rest)
        ++ a.vararg.toList ++ a.kwonlyargs ++ a.kwarg.toList := by
      unfold get_args
      cases a.args with
      | nil => rfl
      | cons a0 rest =>
        by_cases h : a0.arg = "self" ∨ a0.arg = "cls" <;> simp [h]
    rw [henum]
    exact congrArg (defaultDiags a ++ ·)
      (flatMap_if_eq_filterMap (fun (arg : Arg) => arg.ann.isNone)
        (fun (arg : Arg) => (arg.lineno, missingAnnMsg)) _)

/-- Claim C9: the boolean result of an analysis run is true exactly when no
    diagnostic was raised during the run (equivalently, the diagnostic
    sequence is empty, equivalently saw_error is false). -/
theorem C9_result_iff_no_diagnostics (cfg : Config) (tree : List Stmt) (st : LintState)
    (h : runVisitor cfg tree = some st) :
    (lintTree cfg tree = some true ↔ st.diags = []) ∧
    (st.saw_error = false ↔ st.diags = []) := by
  obtain ⟨ds, hds, hst⟩ := Option.map_eq_some'.mp h
  have hstv : st = ⟨!ds.isEmpty, ds.map (fun d => diagString cfg.filename d.1 d.2)⟩ := by
    rw [← hst, emitAll_spec]; simp
  have hlt : lintTree cfg tree = some (!st.saw_error) := by
    simp [lintTree, h]
  subst hstv
  constructor
  · rw [hlt]
    simp [List.map_eq_nil_iff, List.isEmpty_iff]
  · simp [List.map_eq_nil_iff, List.isEmpty_iff]

/-- Witness for C9 at a concrete run: a single pass statement produces the
    state with no diagnostics and a true result. -/
theorem C9_witness :
    (lintTree ⟨"w9.pyi", false⟩ [.Pass 1] = some true ↔
      (⟨false, []⟩ : LintState).diags = []) ∧
    ((⟨false, []⟩ : LintState).saw_error = false ↔
      (⟨false, []⟩ : LintState).diags = []) :=
  C9_result_iff_no_diagnostics ⟨"w9.pyi", false⟩ [.Pass 1] ⟨false, []⟩ (by decide)

/-- Claim C10: visit_If unwraps any boolean operation — an "or" disjunction
    exactly as an "and" conjunction — and checks each operand independently
    against the simple-comparison rule (checkIfExprList runs _check_if_expr
    on each operand in order). -/
theorem C10_boolop_or_like_and (cfg : Config) (l l2 : Nat) (values : List Expr)
    (body orelse : List Stmt) :
    visitStmt cfg (.If l (.BoolOp l2 .Or values) body orelse) =
      visitStmt cfg (.If l (.BoolOp l2 .And values) body orelse) ∧
    ∀ bop : Boolop, checkIfTest (.BoolOp l2 bop values) = checkIfExprList values := by
  constructor
  · rfl
  · intro bop; rfl

/-- Counterexample to claim C2 as stated: "sys.version_info[0] > (3, 6)" is
    routed to the version-check rule with a tuple of two number literals as
    comparator and the operator ">", yet the code emits only the int/tuple
    diagnostic and NOT "Use only < and >= for version comparisons" — the
    single-index mode skips the operator policy entirely. -/
theorem C2_counterexample :
    _check_version_check (.Compare 1 (.Subscript 1 (.Attribute 1 (.Name 1 "sys") "version_info")
        (.Index (.Num 1 0))) [.Gt] [.Tuple 1 [.Num 1 3, .Num 1 6]]) =
      some [(1, _VERSION_COMPARE_NUMBER)] ∧
    _VERSION_COMPARE_NUMBER ≠ useOnlyMsg := ⟨by decide, by decide⟩

/-- Claim C2 as amended: for a comparison routed to the version-check rule
    that is NOT in single-element mode (the left operand is not a subscript
    with index the literal 0) and whose comparator is a tuple of number
    literals of length at most 2: operators < and >= add no operator
    diagnostic; == and != are accepted without a diagnostic exactly when the
    left operand is a slice [:1] or [:2] whose upper bound equals the tuple
    length, otherwise they add the length-N diagnostic (slice present,
    mismatched length) or the strict-equality diagnostic (no such slice);
    every other operator adds the "Use only < and >=" diagnostic. -/
theorem C2_version_operator_policy (l lc : Nat) (left : Expr) (op : Cmpop)
    (elts : List Expr) (hnum : elts.all Expr.isNum = true) (hlen : elts.length ≤ 2)
    (hsingle : (sliceCheck left l).mustBeSingle = false) :
    _check_version_check (.Compare l left [op] [.Tuple lc elts]) =
      some ((sliceCheck left l).diags ++
        (match op with
         | .Lt | .GtE => []
         | .Eq | .NotEq =>
           (match specSliceUpper left with
            | some n => if (elts.length : ℚ) = n then [] else [(l, lengthTupleMsg n)]
            | none => [(l, strictEqualityMsg)])
         | _ => [(l, useOnlyMsg)])) := by
  have hlen2 : ¬(elts.length > 2) := by omega
  have hce := sliceCheck_canStrictEq left l
  cases op <;> simp [_check_version_check, hsingle, hnum, hlen2, hce, Expr.eltsAttr] <;>
    (cases hs : specSliceUpper left with
     | none => simp [hs]
     | some n =>
       by_cases heq : (elts.length : ℚ) = n <;> simp [hs, heq])

/-- Witness for C2 (amended) at "sys.version_info[:2] == (3, 6)": the slice
    upper bound 2 matches the tuple length, so no diagnostic at all. -/
theorem C2_witness :
    _check_version_check (.Compare 1 (.Subscript 1 (.Attribute 1 (.Name 1 "sys") "version_info")
        (.Slice none (some (.Num 1 2)) none)) [.Eq] [.Tuple 1 [.Num 1 3, .Num 1 6]]) =
      some [] :=
  (C2_version_operator_policy 1 1
    (.Subscript 1 (.Attribute 1 (.Name 1 "sys") "version_info")
      (.Slice none (some (.Num 1 2)) none))
    .Eq [.Num 1 3, .Num 1 6] (by decide) (by decide) (by decide)).trans (by decide)

/-- Counterexample to claim C3 as stated: "sys.version_info >= (3, 6.5)" has
    a comparator tuple containing the non-integer element 6.5, yet the code
    emits no diagnostic: the element check is "isinstance(elt, ast.Num)",
    which accepts any numeric literal, not only integers. -/
theorem C3_counterexample :
    _check_version_check (.Compare 1 (.Attribute 1 (.Name 1 "sys") "version_info") [.GtE]
        [.Tuple 1 [.Num 1 3, .Num 1 (13 / 2)]]) = some [] ∧
    some ([] : List Diag) ≠ some [((1 : Nat), _VERSION_COMPARE_NUMBER)] := ⟨by decide, by decide⟩

/-- Claim C3 as amended: with no subscript on the left operand, the
    comparator must be a tuple of NUMBER literals of length at most 2: a
    non-tuple comparator or a tuple containing an element that is not a
    number literal yields the int/tuple diagnostic, and a tuple of number
    literals of length greater than 2 yields the major/minor diagnostic
    (plus the operator diagnostic dictated by the operator policy, with
    strict equality never allowed here). -/
theorem C3_version_whole_tuple (l : Nat) (left : Expr) (op : Cmpop) (comparator : Expr)
    (hns : left.isSubscript = false) :
    _check_version_check (.Compare l left [op] [comparator]) =
      some ((match comparator with
             | .Tuple _ elts =>
               if elts.all Expr.isNum then
                 (if elts.length > 2 then [(l, majorMinorMsg)] else [])
               else [(l, _VERSION_COMPARE_NUMBER)]
             | _ => [(l, _VERSION_COMPARE_NUMBER)]) ++
            (match op with
             | .Lt | .GtE => []
             | .Eq | .NotEq => [(l, strictEqualityMsg)]
             | _ => [(l, useOnlyMsg)])) := by
  have hsr := sliceCheck_not_subscript left l hns
  cases comparator
  case Tuple lt elts =>
    cases hn : elts.all Expr.isNum <;> cases op <;>
      simp [_check_version_check, hsr, hn]
  all_goals cases op <;> simp [_check_version_check, hsr]

/-- Witness for C3 (amended) at "sys.version_info == (3, 6, 1)": the
    length-3 integer tuple yields the major/minor diagnostic and the
    strict-equality diagnostic. -/
theorem C3_witness :
    _check_version_check (.Compare 1 (.Attribute 1 (.Name 1 "sys") "version_info") [.Eq]
        [.Tuple 1 [.Num 1 3, .Num 1 6, .Num 1 1]]) =
      some [(1, majorMinorMsg), (1, strictEqualityMsg)] :=
  (C3_version_whole_tuple 1 (.Attribute 1 (.Name 1 "sys") "version_info") .Eq
    (.Tuple 1 [.Num 1 3, .Num 1 6, .Num 1 1]) (by decide)).trans (by decide)

theorem bodyStatementCheck_spec (fname : String) (i : Nat) (s : Stmt)
    (hs : (match s with | .Assign _ [] _ => false | _ => true) = true) :
    bodyStatementCheck fname i s =
      some (if allowedBodyStatement fname i s then [] else [(s.lineno, bodyOnlyMsg)]) := by
  cases s with
  | FunctionDef l name args body returns =>
    by_cases hi : i = 0 <;> by_cases hf : fname = "__init__" <;>
      simp [bodyStatementCheck, allowedBodyStatement, hi, hf, Stmt.lineno]
  | Assign l targets v =>
    cases targets with
    | nil => simp at hs
    | cons t rest =>
      by_cases hi : i = 0 <;> by_cases hf : fname = "__init__" <;>
        cases ht : isSelfAttrTarget t <;>
        simp [bodyStatementCheck, allowedBodyStatement, hi, hf, ht, Stmt.lineno]
  | If l test body orelse =>
    by_cases hi : i = 0 <;> by_cases hf : fname = "__init__" <;>
      simp [bodyStatementCheck, allowedBodyStatement, hi, hf, Stmt.lineno]
  | Pass l =>
    by_cases hi : i = 0 <;> by_cases hf : fname = "__init__" <;>
      simp [bodyStatementCheck, allowedBodyStatement, hi, hf, Stmt.lineno]
  | Raise l =>
    by_cases hi : i = 0 <;> by_cases hf : fname = "__init__" <;>
      simp [bodyStatementCheck, allowedBodyStatement, hi, hf, Stmt.lineno]
  | ExprStmt l v =>
    by_cases hi : i = 0 <;> by_cases hf : fname = "__init__" <;>
      cases hv : v.isEllipsisNode <;>
      simp [bodyStatementCheck, allowedBodyStatement, hi, hf, hv, Stmt.lineno]

theorem functionBodyLoopFrom_spec (fname : String) (body : List Stmt) (i : Nat)
    (h : body.all (fun s => match s with | .Assign _ [] _ => false | _ => true) = true) :
    functionBodyLoopFrom fname i body =
      some ((body.enumFrom i).filterMap (fun p =>
        if allowedBodyStatement fname p.1 p.2 then none
        else some (p.2.lineno, bodyOnlyMsg))) := by
  induction body generalizing i with
  | nil => rfl
  | cons s rest ih =>
    rw [List.all_cons, Bool.and_eq_true] at h
    have hr := ih (i + 1) h.2
    simp only [functionBodyLoopFrom, bodyStatementCheck_spec fname i s h.1, hr,
      List.enumFrom_cons, List.filterMap_cons]
    cases hab : allowedBodyStatement fname i s <;> simp [hab]

/-- Counterexample to claim C4 as stated: inside __init__, the statement
    "self.x = y = 0" is an assignment with TWO targets (not a single
    target of the form self.<name>), yet the code allows it without a
    diagnostic: the check inspects only targets[0]. -/
theorem C4_counterexample :
    functionBodyLoop "__init__"
      [.ExprStmt 1 (.Ellipsis 1),
       .Assign 2 [.Attribute 2 (.Name 2 "self") "x", .Name 2 "y"] (.Num 2 0)] = some [] ∧
    some ([] : List Diag) ≠ some [((2 : Nat), bodyOnlyMsg)] := ⟨by decide, by decide⟩

/-- Claim C4 as amended: every function body statement yields exactly one
    "Function body must contain only ... or pass" diagnostic unless allowed,
    where the allowed statements are: the first statement when it is a pass
    statement or a bare "..." expression, any raise statement, and — only in
    a function named __init__ — an assignment whose FIRST target is an
    attribute access of the form self.<name>.  (The hypothesis restricts to
    well-formed trees: assignments have a nonempty target list.) -/
theorem C4_function_body_allowed (fname : String) (body : List Stmt)
    (h : body.all (fun s => match s with | .Assign _ [] _ => false | _ => true) = true) :
    functionBodyLoop fname body =
      some (body.enum.filterMap (fun p =>
        if allowedBodyStatement fname p.1 p.2 then none
        else some (p.2.lineno, bodyOnlyMsg))) := by
  rw [functionBodyLoop, functionBodyLoopFrom_spec fname body 0 h]
  rfl

/-- Witness for C4 (amended): a body whose first statement is "...", then a
    raise, then a pass (not first, so flagged once). -/
theorem C4_witness :
    functionBodyLoop "f" [.ExprStmt 1 (.Ellipsis 1), .Raise 2, .Pass 3] =
      some [(3, bodyOnlyMsg)] :=
  (C4_function_body_allowed "f" [.ExprStmt 1 (.Ellipsis 1), .Raise 2, .Pass 3]
    (by decide)).trans (by decide)

/-- Counterexample to claim C8 as stated: a tree with two independent
    violations in sibling if-statements does NOT always yield both
    diagnostics — when the first sibling is the crashing version check
    "if sys.version_info[:1] == 3:", the run raises before reaching the
    second sibling (whose own violation is shown in the second conjunct). -/
theorem C8_counterexample :
    runVisitor ⟨"a.pyi", false⟩
      [.If 1 (.Compare 1 (.Subscript 1 (.Attribute 1 (.Name 1 "sys") "version_info")
          (.Slice none (some (.Num 1 1)) none)) [.Eq] [.Num 1 3]) [.Pass 1] [],
       .If 2 (.Name 2 "x") [.Pass 2] []] = none ∧
    visitStmt ⟨"a.pyi", false⟩ (.If 2 (.Name 2 "x") [.Pass 2] []) =
      some [(2, simpleComparisonMsg)] := ⟨by decide, by decide⟩

/-- Claim C8 as amended: the error primitive only sets the saw_error flag
    and appends one formatted diagnostic, and for every pair of sibling
    subtrees on which every rule check terminates without an uncaught
    exception, the analysis yields the diagnostics of both siblings, in
    source order. -/
theorem C8_error_primitive_and_order :
    (∀ (f : String) (l : Nat) (m : String) (st : LintState),
      error f l m st = ⟨true, st.diags ++ [diagString f l m]⟩) ∧
    (∀ (cfg : Config) (s1 s2 : Stmt) (d1 d2 : List Diag),
      visitStmt cfg s1 = some d1 → visitStmt cfg s2 = some d2 →
      runVisitor cfg [s1, s2] =
        some ⟨!(d1 ++ d2).isEmpty,
              (d1 ++ d2).map (fun d => diagString cfg.filename d.1 d.2)⟩) := by
  constructor
  · intro f l m st; rfl
  · intro cfg s1 s2 d1 d2 h1 h2
    have hv : visitStmts cfg [s1, s2] = some (d1 ++ d2) := by
      simp [visitStmts, h1, h2]
    rw [runVisitor, hv]
    simp [emitAll_spec]

/-- Witness for C8 (amended): two sibling if-statements, each with a
    non-comparison test, produce both diagnostics in source order. -/
theorem C8_witness :
    runVisitor ⟨"w8.pyi", false⟩
      [.If 1 (.Name 1 "x") [.Pass 1] [], .If 2 (.Name 2 "y") [.Pass 2] []] =
      some ⟨!(([((1 : Nat), simpleComparisonMsg)] ++ [((2 : Nat), simpleComparisonMsg)]).isEmpty),
            ([((1 : Nat), simpleComparisonMsg)] ++ [((2 : Nat), simpleComparisonMsg)]).map
              (fun d => diagString (Config.mk "w8.pyi" false).filename d.1 d.2)⟩ :=
  C8_error_primitive_and_order.2 ⟨"w8.pyi", false⟩
    (.If 1 (.Name 1 "x") [.Pass 1] []) (.If 2 (.Name 2 "y") [.Pass 2] [])
    [(1, simpleComparisonMsg)] [(2, simpleComparisonMsg)] (by decide) (by decide)

end Stublint
